import Mathlib

/-!
Shallow embedding of the chat-app-express-ts backend's authentication
subsystem: the JWT-based token service (`src/services/auth.service.ts`),
the cookie policy (`src/utils/cookieHelper.ts`), the auth controllers
(`src/controllers/auth.controller.ts`), and the route guard
(`src/middlewares/auth.middlewares/protectRoute.ts`).

JSON web tokens are modelled symbolically: a signed token records its
payload, its issued-at and expiry timestamps (seconds), and the secret it
was signed with.  Verification against a secret succeeds exactly when the
secrets coincide (the standard symbolic model of an unforgeable MAC) and,
as in the `jsonwebtoken` library, the signature is checked before the
expiry.  bcrypt is modelled as a symbolic injective hash.  Times are
natural numbers (seconds since epoch); TTL configuration values are the
corresponding numbers of seconds.
-/

/-- Identity claim embedded in every token: `{ id, email }`
(interface `JwtPayload` in `auth.service.ts`). -/
structure JwtPayload where
  id : String
  email : String
deriving Repr, DecidableEq

/-- Errors thrown by `jwt.verify`: `JsonWebTokenError` (bad signature,
message `invalid signature`) and `TokenExpiredError` (message
`jwt expired`). -/
inductive JwtError where
  | JsonWebTokenError (msg : String)
  | TokenExpiredError
deriving Repr, DecidableEq

/-- The `message` property of a thrown jwt error. -/
def JwtError.message : JwtError → String
  | .JsonWebTokenError m => m
  | .TokenExpiredError => "jwt expired"

/-- A signed token, modelled symbolically: payload fields, issued-at,
expiry, and the signing secret (standing for the HMAC signature, which
only the holder of the secret can produce or check). -/
structure JwtToken where
  id : String
  email : String
  iat : Nat
  exp : Nat
  secret : String
deriving Repr, DecidableEq

/-- Model of `jwt.sign(payload, secret, { expiresIn: ttl })` at time
`now`: the token carries the payload, `iat = now` and `exp = now + ttl`. -/
def jwtSign (payload : JwtPayload) (secret : String) (now ttl : Nat) : JwtToken :=
  { id := payload.id, email := payload.email, iat := now, exp := now + ttl, secret := secret }

/-- Model of `jwt.verify(token, secret)` at time `now`.  As in the
`jsonwebtoken` library, the signature is checked first (mismatch throws
`JsonWebTokenError("invalid signature")`), then the expiry
(`now >= exp` throws `TokenExpiredError`); otherwise the decoded payload
is returned. -/
def jwtVerify (token : JwtToken) (secret : String) (now : Nat) : Except JwtError JwtPayload :=
  if token.secret ≠ secret then
    .error (.JsonWebTokenError "invalid signature")
  else if token.exp ≤ now then
    .error .TokenExpiredError
  else
    .ok { id := token.id, email := token.email }

/-- Symbolic model of `bcrypt.hash(password, 10)` (injective, prefix-tagged). -/
def bcryptHash (password : String) : String :=
  "bcrypt-2b-10:" ++ password

/-- Symbolic model of `bcrypt.compare(candidate, stored)`: succeeds exactly
when the stored string is the hash of the candidate. -/
def bcryptCompare (candidate stored : String) : Bool :=
  stored == bcryptHash candidate

/-- A persisted user record (`IUserDocument` from `user.model.ts`); the
`password` field stores the bcrypt hash (hashed by the pre-save hook). -/
structure UserDocument where
  _id : String
  email : String
  password : String
  fullName : String
  avatarUrl : Option String
deriving Repr, DecidableEq

/-- Instance method `user.comparePassword(candidate)` from `user.model.ts`:
`bcrypt.compare(candidatePassword, this.password)`. -/
def UserDocument.comparePassword (user : UserDocument) (candidatePassword : String) : Bool :=
  bcryptCompare candidatePassword user.password

/-- The Credential Store, modelled as the list of persisted user records. -/
abbrev UserStore := List UserDocument

/-- Static `User.findOne({ email })`. -/
def findByEmailStore (store : UserStore) (email : String) : Option UserDocument :=
  store.find? (fun u => u.email == email)

/-- Static `User.existsByEmail(email)` from `user.model.ts`. -/
def existsByEmail (store : UserStore) (email : String) : Bool :=
  (findByEmailStore store email).isSome

/-- Static `User.findById(id)`. -/
def findById (store : UserStore) (id : String) : Option UserDocument :=
  store.find? (fun u => u._id == id)

/-- The `AuthService` configuration fields read from the environment:
two distinct secrets and two TTLs (in seconds). -/
structure AuthConfig where
  JWT_SECRET : String
  JWT_EXPIRES_IN : Nat
  JWT_REFRESH_SECRET : String
  JWT_REFRESH_EXPIRES_IN : Nat
deriving Repr, DecidableEq

namespace AUTH_MESSAGES

/-- `AUTH_MESSAGES.LOGIN.INVALID_CREDENTIALS` from `auth.message.ts`. -/
def LOGIN.INVALID_CREDENTIALS : String := "Invalid email or password"

/-- `AUTH_MESSAGES.LOGIN.SUCCESS`. -/
def LOGIN.SUCCESS : String := "Login successful"

/-- `AUTH_MESSAGES.SIGNUP.SUCCESS`. -/
def SIGNUP.SUCCESS : String := "Account created successfully"

/-- `AUTH_MESSAGES.SIGNUP.PASSWORD_MISMATCH`. -/
def SIGNUP.PASSWORD_MISMATCH : String := "Password and confirm password do not match"

/-- `AUTH_MESSAGES.SIGNUP.EMAIL_ALREADY_EXISTS`. -/
def SIGNUP.EMAIL_ALREADY_EXISTS : String := "An account with this email already exists"

/-- `AUTH_MESSAGES.TOKEN.INVALID`. -/
def TOKEN.INVALID : String := "Invalid token"

end AUTH_MESSAGES

namespace AuthService

/-- `AuthService.generateToken(user)`: signs `{ id: user._id, email:
user.email }` with `JWT_SECRET` and TTL `JWT_EXPIRES_IN`, at time `now`. -/
def generateToken (cfg : AuthConfig) (user : UserDocument) (now : Nat) : JwtToken :=
  jwtSign { id := user._id, email := user.email } cfg.JWT_SECRET now cfg.JWT_EXPIRES_IN

/-- `AuthService.verifyToken(token)`: `jwt.verify(token, JWT_SECRET)`. -/
def verifyToken (cfg : AuthConfig) (token : JwtToken) (now : Nat) : Except JwtError JwtPayload :=
  jwtVerify token cfg.JWT_SECRET now

/-- `AuthService.generateRefreshToken(user)`: signs the same payload with
`JWT_REFRESH_SECRET` and TTL `JWT_REFRESH_EXPIRES_IN`. -/
def generateRefreshToken (cfg : AuthConfig) (user : UserDocument) (now : Nat) : JwtToken :=
  jwtSign { id := user._id, email := user.email } cfg.JWT_REFRESH_SECRET now
    cfg.JWT_REFRESH_EXPIRES_IN

/-- `AuthService.generateTokenPair(user)`. -/
def generateTokenPair (cfg : AuthConfig) (user : UserDocument) (now : Nat) :
    JwtToken × JwtToken :=
  (generateToken cfg user now, generateRefreshToken cfg user now)

/-- `AuthService.verifyRefreshToken(token)`: `jwt.verify(token,
JWT_REFRESH_SECRET)`. -/
def verifyRefreshToken (cfg : AuthConfig) (token : JwtToken) (now : Nat) :
    Except JwtError JwtPayload :=
  jwtVerify token cfg.JWT_REFRESH_SECRET now

/-- `AuthService.refreshTokens(refreshToken)`: verify the refresh token
(rethrowing the jwt error by its message), look the user up by the decoded
id (`User not found` if absent), then mint a fresh pair. -/
def refreshTokens (store : UserStore) (cfg : AuthConfig) (token : JwtToken) (now : Nat) :
    Except String (JwtToken × JwtToken) :=
  match verifyRefreshToken cfg token now with
  | .error e => .error e.message
  | .ok decoded =>
    match findById store decoded.id with
    | none => .error "User not found"
    | some user => .ok (generateTokenPair cfg user now)

/-- `AuthService.login(email, password)`: `findOne({email})` with password
selected, then `comparePassword`; both failures throw the identical
`INVALID_CREDENTIALS` message. -/
def login (store : UserStore) (cfg : AuthConfig) (email password : String) (now : Nat) :
    Except String (JwtToken × JwtToken) :=
  match findByEmailStore store email with
  | none => .error AUTH_MESSAGES.LOGIN.INVALID_CREDENTIALS
  | some user =>
    if user.comparePassword password = false then
      .error AUTH_MESSAGES.LOGIN.INVALID_CREDENTIALS
    else
      .ok (generateTokenPair cfg user now)

end AuthService

/-- C1.  For every identity `{id, email}` (any user record), verifying an
access token issued for it with the access-token verifier yields the same
`{id, email}`, provided verification happens strictly before the
configured access-token TTL elapses. -/
theorem access_token_roundtrip (cfg : AuthConfig) (user : UserDocument) (iat now : Nat)
    (h : now < iat + cfg.JWT_EXPIRES_IN) :
    AuthService.verifyToken cfg (AuthService.generateToken cfg user iat) now =
      .ok { id := user._id, email := user.email } := by
  simp only [AuthService.verifyToken, AuthService.generateToken, jwtVerify, jwtSign,
    ne_eq, not_true_eq_false, if_false]
  rw [if_neg (by omega)]

/-- Witness for C1 at a concrete configuration, user and clock. -/
theorem access_token_roundtrip_witness :
    AuthService.verifyToken
        { JWT_SECRET := "s1", JWT_EXPIRES_IN := 86400,
          JWT_REFRESH_SECRET := "s2", JWT_REFRESH_EXPIRES_IN := 604800 }
        (AuthService.generateToken
          { JWT_SECRET := "s1", JWT_EXPIRES_IN := 86400,
            JWT_REFRESH_SECRET := "s2", JWT_REFRESH_EXPIRES_IN := 604800 }
          { _id := "u1", email := "a@b.com", password := "h", fullName := "A B",
            avatarUrl := none } 100) 200 =
      .ok { id := "u1", email := "a@b.com" } :=
  access_token_roundtrip
    { JWT_SECRET := "s1", JWT_EXPIRES_IN := 86400,
      JWT_REFRESH_SECRET := "s2", JWT_REFRESH_EXPIRES_IN := 604800 }
    { _id := "u1", email := "a@b.com", password := "h", fullName := "A B", avatarUrl := none }
    100 200 (by decide)

/-- C2.  With distinct access and refresh secrets, verifying a refresh
token with the access-token verifier, or an access token with the
refresh-token verifier, always throws, at every verification time — and it
is the signature check that fails, since tokens embed no type field. -/
theorem cross_class_verification_fails (cfg : AuthConfig) (user : UserDocument)
    (iat now iat2 now2 : Nat) (h : cfg.JWT_SECRET ≠ cfg.JWT_REFRESH_SECRET) :
    AuthService.verifyToken cfg (AuthService.generateRefreshToken cfg user iat) now =
      .error (.JsonWebTokenError "invalid signature") ∧
    AuthService.verifyRefreshToken cfg (AuthService.generateToken cfg user iat2) now2 =
      .error (.JsonWebTokenError "invalid signature") := by
  constructor
  · simp [AuthService.verifyToken, AuthService.generateRefreshToken, jwtVerify, jwtSign,
      fun a => (Ne.symm h : cfg.JWT_REFRESH_SECRET ≠ cfg.JWT_SECRET) a]
  · simp [AuthService.verifyRefreshToken, AuthService.generateToken, jwtVerify, jwtSign, h]

/-- Witness for C2 at a concrete configuration with distinct secrets. -/
theorem cross_class_verification_fails_witness :
    AuthService.verifyToken
        { JWT_SECRET := "s1", JWT_EXPIRES_IN := 86400,
          JWT_REFRESH_SECRET := "s2", JWT_REFRESH_EXPIRES_IN := 604800 }
        (AuthService.generateRefreshToken
          { JWT_SECRET := "s1", JWT_EXPIRES_IN := 86400,
            JWT_REFRESH_SECRET := "s2", JWT_REFRESH_EXPIRES_IN := 604800 }
          { _id := "u1", email := "a@b.com", password := "h", fullName := "A B",
            avatarUrl := none } 0) 1 =
      .error (.JsonWebTokenError "invalid signature") ∧
    AuthService.verifyRefreshToken
        { JWT_SECRET := "s1", JWT_EXPIRES_IN := 86400,
          JWT_REFRESH_SECRET := "s2", JWT_REFRESH_EXPIRES_IN := 604800 }
        (AuthService.generateToken
          { JWT_SECRET := "s1", JWT_EXPIRES_IN := 86400,
            JWT_REFRESH_SECRET := "s2", JWT_REFRESH_EXPIRES_IN := 604800 }
          { _id := "u1", email := "a@b.com", password := "h", fullName := "A B",
            avatarUrl := none } 2) 3 =
      .error (.JsonWebTokenError "invalid signature") :=
  cross_class_verification_fails
    { JWT_SECRET := "s1", JWT_EXPIRES_IN := 86400,
      JWT_REFRESH_SECRET := "s2", JWT_REFRESH_EXPIRES_IN := 604800 }
    { _id := "u1", email := "a@b.com", password := "h", fullName := "A B", avatarUrl := none }
    0 1 2 3 (by decide)

/-- C6.  A token whose signature is valid for the matching secret but whose
expiry has passed fails verification with `TokenExpiredError`, never with
the generic `JsonWebTokenError`. -/
theorem expired_token_fails_with_expired_error (cfg : AuthConfig) (token : JwtToken)
    (now : Nat) (hsig : token.secret = cfg.JWT_SECRET) (hexp : token.exp ≤ now) :
    AuthService.verifyToken cfg token now = .error .TokenExpiredError := by
  simp [AuthService.verifyToken, jwtVerify, hsig, hexp]

/-- Witness for C6 at a concrete expired-but-well-signed token. -/
theorem expired_token_fails_with_expired_error_witness :
    AuthService.verifyToken
        { JWT_SECRET := "s1", JWT_EXPIRES_IN := 86400,
          JWT_REFRESH_SECRET := "s2", JWT_REFRESH_EXPIRES_IN := 604800 }
        { id := "u1", email := "a@b.com", iat := 0, exp := 50, secret := "s1" } 50 =
      .error .TokenExpiredError :=
  expired_token_fails_with_expired_error
    { JWT_SECRET := "s1", JWT_EXPIRES_IN := 86400,
      JWT_REFRESH_SECRET := "s2", JWT_REFRESH_EXPIRES_IN := 604800 }
    { id := "u1", email := "a@b.com", iat := 0, exp := 50, secret := "s1" } 50
    (by decide) (by decide)

/-- The environment fields the cookie policy reads (`env.ts`), plus
`NODE_ENV` which drives `isProduction()`. -/
structure EnvConfig where
  COOKIE_HTTP_ONLY : Bool
  COOKIE_SECURE : Bool
  COOKIE_SAME_SITE : String
  COOKIE_ACCESS_TOKEN_EXPIRES : Nat
  COOKIE_REFRESH_TOKEN_EXPIRES : Nat
  NODE_ENV : String
deriving Repr, DecidableEq

/-- `isProduction()` from `env.ts`. -/
def isProduction (env : EnvConfig) : Bool :=
  env.NODE_ENV == "production"

/-- The cookie attribute set written with `res.cookie` (the fields
`CookieHelper` sets; `maxAge` in milliseconds, `expires` as an epoch
timestamp, both absent when unset). -/
structure CookieOptions where
  httpOnly : Bool
  secure : Bool
  sameSite : String
  path : String
  maxAge : Option Nat
  expires : Option Nat
deriving Repr, DecidableEq

namespace CookieHelper

/-- `CookieHelper.getBaseCookieOptions()`. -/
def getBaseCookieOptions (env : EnvConfig) : CookieOptions :=
  { httpOnly := env.COOKIE_HTTP_ONLY,
    secure := if isProduction env then true else env.COOKIE_SECURE,
    sameSite := env.COOKIE_SAME_SITE,
    path := "/",
    maxAge := none,
    expires := none }

/-- `CookieHelper.getAccessTokenCookieOptions()`. -/
def getAccessTokenCookieOptions (env : EnvConfig) : CookieOptions :=
  { getBaseCookieOptions env with maxAge := some env.COOKIE_ACCESS_TOKEN_EXPIRES }

/-- `CookieHelper.getRefreshTokenCookieOptions()`. -/
def getRefreshTokenCookieOptions (env : EnvConfig) : CookieOptions :=
  { getBaseCookieOptions env with maxAge := some env.COOKIE_REFRESH_TOKEN_EXPIRES }

/-- `CookieHelper.getClearCookieOptions()`: base options with `maxAge: 0`
and `expires: new Date(0)`. -/
def getClearCookieOptions (env : EnvConfig) : CookieOptions :=
  { getBaseCookieOptions env with maxAge := some 0, expires := some 0 }

end CookieHelper

namespace COOKIE_NAMES

/-- `COOKIE_NAMES.ACCESS_TOKEN`. -/
def ACCESS_TOKEN : String := "accessToken"

/-- `COOKIE_NAMES.REFRESH_TOKEN`. -/
def REFRESH_TOKEN : String := "refreshToken"

end COOKIE_NAMES

/-- One `res.cookie(name, value, options)` write.  The value is the token
written, or `none` for the empty string written when clearing. -/
structure SetCookie where
  name : String
  value : Option JwtToken
  options : CookieOptions
deriving Repr, DecidableEq

/-- An HTTP response as produced by `ResponseBuilder`: status code, the
envelope's `success` flag and `message`, the `data` object (field name to
JSON string value, `none` for a JS `undefined`), and the cookie writes
performed on `res` before the body was sent. -/
structure HttpResponse where
  status : Nat
  success : Bool
  message : String
  data : List (String × Option String)
  cookies : List SetCookie
deriving Repr, DecidableEq

namespace ResponseBuilder

/-- `ResponseBuilder.success(res, data, message, statusCode)`; the
`cookies` argument records the `res.cookie` writes already performed on
this response. -/
def success (cookies : List SetCookie) (data : List (String × Option String))
    (message : String) (statusCode : Nat) : HttpResponse :=
  { status := statusCode, success := true, message := message, data := data,
    cookies := cookies }

/-- `ResponseBuilder.error(res, message, statusCode)`: a
`success: false` envelope with `data: null`. -/
def error (cookies : List SetCookie) (message : String) (statusCode : Nat) : HttpResponse :=
  { status := statusCode, success := false, message := message, data := [],
    cookies := cookies }

end ResponseBuilder

/-- The request-scoped identity the guard attaches
(`res.locals.user : AuthenticatedUser`). -/
structure AuthenticatedUser where
  id : String
  email : String
deriving Repr, DecidableEq

/-- Outcome of running the `protectRoute` middleware: either it calls
`next()` with `res.locals.user` set, or it responds itself. -/
inductive GuardOutcome where
  | callsNext (user : AuthenticatedUser)
  | responds (response : HttpResponse)
deriving Repr, DecidableEq

/-- `protectRoute` from `protectRoute.ts`.  The Credential Store is passed
to show the guard never consults it: the definition does not inspect
`store` at all. -/
def protectRoute (store : UserStore) (cfg : AuthConfig) (accessCookie : Option JwtToken)
    (now : Nat) : GuardOutcome :=
  match store, accessCookie with
  | _, none => .responds (ResponseBuilder.error [] AUTH_MESSAGES.TOKEN.INVALID 401)
  | _, some token =>
    match AuthService.verifyToken cfg token now with
    | .ok decoded => .callsNext { id := decoded.id, email := decoded.email }
    | .error e => .responds (ResponseBuilder.error [] e.message 401)

/-- C5.  The route guard: with no access cookie it responds 401 with the
fixed message `Invalid token`; with a cookie that verifies it attaches
exactly the decoded `{id, email}` and calls `next()`; with a cookie that
fails verification it responds 401 with the verification error's message;
and its outcome never depends on the Credential Store (no lookup). -/
theorem protect_route_contract (store store2 : UserStore) (cfg : AuthConfig)
    (accessCookie : Option JwtToken) (now : Nat) :
    protectRoute store cfg none now =
      .responds (ResponseBuilder.error [] "Invalid token" 401) ∧
    (∀ token payload, accessCookie = some token →
      AuthService.verifyToken cfg token now = .ok payload →
      protectRoute store cfg accessCookie now =
        .callsNext { id := payload.id, email := payload.email }) ∧
    (∀ token e, accessCookie = some token →
      AuthService.verifyToken cfg token now = .error e →
      protectRoute store cfg accessCookie now =
        .responds (ResponseBuilder.error [] e.message 401)) ∧
    protectRoute store cfg accessCookie now = protectRoute store2 cfg accessCookie now := by
  refine ⟨rfl, ?_, ?_, ?_⟩
  · rintro token payload rfl hv
    simp [protectRoute, hv]
  · rintro token e rfl hv
    simp [protectRoute, hv]
  · cases accessCookie <;> rfl

/-- Witness for C5: a concrete verifying cookie is attached and passed on. -/
theorem protect_route_contract_witness :
    protectRoute []
        { JWT_SECRET := "s1", JWT_EXPIRES_IN := 86400,
          JWT_REFRESH_SECRET := "s2", JWT_REFRESH_EXPIRES_IN := 604800 }
        (some { id := "u1", email := "a@b.com", iat := 0, exp := 100, secret := "s1" }) 10 =
      .callsNext { id := "u1", email := "a@b.com" } :=
  (protect_route_contract [] []
      { JWT_SECRET := "s1", JWT_EXPIRES_IN := 86400,
        JWT_REFRESH_SECRET := "s2", JWT_REFRESH_EXPIRES_IN := 604800 }
      (some { id := "u1", email := "a@b.com", iat := 0, exp := 100, secret := "s1" })
      10).2.1
    { id := "u1", email := "a@b.com", iat := 0, exp := 100, secret := "s1" }
    { id := "u1", email := "a@b.com" } rfl (by simp [AuthService.verifyToken, jwtVerify])

/-- The `refreshToken` controller from `auth.controller.ts`: with no
`refreshToken` cookie it responds 401 `Refresh token not found` without
touching the cookies; otherwise it delegates to
`AuthService.refreshTokens`, writing the new pair on success and, only in
the catch branch, clearing both cookies before responding 401 with the
error's message. -/
def refreshTokenHandler (store : UserStore) (cfg : AuthConfig) (env : EnvConfig)
    (refreshCookie : Option JwtToken) (now : Nat) : HttpResponse :=
  match refreshCookie with
  | none => ResponseBuilder.error [] "Refresh token not found" 401
  | some token =>
    match AuthService.refreshTokens store cfg token now with
    | .ok pair =>
      ResponseBuilder.success
        [ { name := COOKIE_NAMES.ACCESS_TOKEN, value := some pair.1,
            options := CookieHelper.getAccessTokenCookieOptions env },
          { name := COOKIE_NAMES.REFRESH_TOKEN, value := some pair.2,
            options := CookieHelper.getRefreshTokenCookieOptions env } ]
        [("message", some "Tokens refreshed successfully")] "Tokens refreshed" 200
    | .error msg =>
      ResponseBuilder.error
        [ { name := COOKIE_NAMES.ACCESS_TOKEN, value := none,
            options := CookieHelper.getClearCookieOptions env },
          { name := COOKIE_NAMES.REFRESH_TOKEN, value := none,
            options := CookieHelper.getClearCookieOptions env } ]
        msg 401

/-- C3 counterexample.  When the `refreshToken` cookie is absent, the
handler responds 401 but performs no cookie write at all: the response's
cookie list is empty, so the two clearing writes the claim requires do not
happen.  (The clearing branch is only reached from the catch around
`refreshTokens`, which the early `return` skips.) -/
theorem refresh_absent_cookie_does_not_clear :
    (refreshTokenHandler []
        { JWT_SECRET := "s1", JWT_EXPIRES_IN := 86400,
          JWT_REFRESH_SECRET := "s2", JWT_REFRESH_EXPIRES_IN := 604800 }
        { COOKIE_HTTP_ONLY := true, COOKIE_SECURE := false, COOKIE_SAME_SITE := "lax",
          COOKIE_ACCESS_TOKEN_EXPIRES := 900000, COOKIE_REFRESH_TOKEN_EXPIRES := 604800000,
          NODE_ENV := "development" }
        none 0).status = 401 ∧
    (refreshTokenHandler []
        { JWT_SECRET := "s1", JWT_EXPIRES_IN := 86400,
          JWT_REFRESH_SECRET := "s2", JWT_REFRESH_EXPIRES_IN := 604800 }
        { COOKIE_HTTP_ONLY := true, COOKIE_SECURE := false, COOKIE_SAME_SITE := "lax",
          COOKIE_ACCESS_TOKEN_EXPIRES := 900000, COOKIE_REFRESH_TOKEN_EXPIRES := 604800000,
          NODE_ENV := "development" }
        none 0).cookies = [] :=
  ⟨rfl, rfl⟩

/-- C3 amended.  A failed refresh responds 401 in every case, but the
cookie clearing depends on the failure: with the cookie absent the handler
responds 401 `Refresh token not found` without modifying any cookie; with
a cookie present whose refresh fails (bad signature, expired, or user no
longer existing) it responds 401 with the error's message and sets both
cookies to empty values with the clearing options (`maxAge 0`, `expires`
at epoch 0). -/
theorem refresh_failure_behavior (store : UserStore) (cfg : AuthConfig) (env : EnvConfig)
    (token : JwtToken) (now : Nat) (msg : String)
    (h : AuthService.refreshTokens store cfg token now = .error msg) :
    refreshTokenHandler store cfg env none now =
      ResponseBuilder.error [] "Refresh token not found" 401 ∧
    refreshTokenHandler store cfg env (some token) now =
      ResponseBuilder.error
        [ { name := "accessToken", value := none,
            options := CookieHelper.getClearCookieOptions env },
          { name := "refreshToken", value := none,
            options := CookieHelper.getClearCookieOptions env } ]
        msg 401 ∧
    (CookieHelper.getClearCookieOptions env).maxAge = some 0 ∧
    (CookieHelper.getClearCookieOptions env).expires = some 0 := by
  refine ⟨rfl, ?_, rfl, rfl⟩
  simp [refreshTokenHandler, h, COOKIE_NAMES.ACCESS_TOKEN, COOKIE_NAMES.REFRESH_TOKEN]

/-- Witness for C3's amended theorem at a concrete expired refresh token. -/
theorem refresh_failure_behavior_witness :
    refreshTokenHandler []
        { JWT_SECRET := "s1", JWT_EXPIRES_IN := 86400,
          JWT_REFRESH_SECRET := "s2", JWT_REFRESH_EXPIRES_IN := 604800 }
        { COOKIE_HTTP_ONLY := true, COOKIE_SECURE := false, COOKIE_SAME_SITE := "lax",
          COOKIE_ACCESS_TOKEN_EXPIRES := 900000, COOKIE_REFRESH_TOKEN_EXPIRES := 604800000,
          NODE_ENV := "development" }
        (some { id := "u1", email := "a@b.com", iat := 0, exp := 50, secret := "s2" }) 60 =
      ResponseBuilder.error
        [ { name := "accessToken", value := none,
            options := CookieHelper.getClearCookieOptions
              { COOKIE_HTTP_ONLY := true, COOKIE_SECURE := false, COOKIE_SAME_SITE := "lax",
                COOKIE_ACCESS_TOKEN_EXPIRES := 900000,
                COOKIE_REFRESH_TOKEN_EXPIRES := 604800000, NODE_ENV := "development" } },
          { name := "refreshToken", value := none,
            options := CookieHelper.getClearCookieOptions
              { COOKIE_HTTP_ONLY := true, COOKIE_SECURE := false, COOKIE_SAME_SITE := "lax",
                COOKIE_ACCESS_TOKEN_EXPIRES := 900000,
                COOKIE_REFRESH_TOKEN_EXPIRES := 604800000, NODE_ENV := "development" } } ]
        "jwt expired" 401 :=
  (refresh_failure_behavior []
      { JWT_SECRET := "s1", JWT_EXPIRES_IN := 86400,
        JWT_REFRESH_SECRET := "s2", JWT_REFRESH_EXPIRES_IN := 604800 }
      { COOKIE_HTTP_ONLY := true, COOKIE_SECURE := false, COOKIE_SAME_SITE := "lax",
        COOKIE_ACCESS_TOKEN_EXPIRES := 900000, COOKIE_REFRESH_TOKEN_EXPIRES := 604800000,
        NODE_ENV := "development" }
      { id := "u1", email := "a@b.com", iat := 0, exp := 50, secret := "s2" } 60
      "jwt expired"
      (by simp [AuthService.refreshTokens, AuthService.verifyRefreshToken, jwtVerify,
        JwtError.message])).2.1

/-- The signup request body (`ISignupRequest`). -/
structure ISignupRequest where
  email : String
  password : String
  confirmPassword : String
  fullName : String
  avatarUrl : Option String
deriving Repr, DecidableEq

/-- A Credential Store operation invoked by the signup service, in call
order. -/
inductive StoreOp where
  | existsByEmail (email : String)
  | create (email : String)
deriving Repr, DecidableEq

/-- Result of `AuthService.signup`: the thrown error or the token pair,
the store after the call, and the trace of Credential Store operations the
call performed. -/
structure SignupOutcome where
  result : Except String (JwtToken × JwtToken)
  store : UserStore
  ops : List StoreOp
deriving Repr

/-- `AuthService.signup(...)` from `auth.service.ts`: password/confirm
check first (throwing before any store access), then
`User.existsByEmail`, then `User.create` (whose pre-save hook hashes the
password) and a fresh token pair.  `newId` is the id the store assigns to
the created document. -/
def AuthService.signup (store : UserStore) (cfg : AuthConfig) (req : ISignupRequest)
    (newId : String) (now : Nat) : SignupOutcome :=
  if req.password ≠ req.confirmPassword then
    { result := .error AUTH_MESSAGES.SIGNUP.PASSWORD_MISMATCH, store := store, ops := [] }
  else if existsByEmail store req.email then
    { result := .error AUTH_MESSAGES.SIGNUP.EMAIL_ALREADY_EXISTS, store := store,
      ops := [.existsByEmail req.email] }
  else
    let user : UserDocument :=
      { _id := newId, email := req.email, password := bcryptHash req.password,
        fullName := req.fullName, avatarUrl := req.avatarUrl }
    { result := .ok (AuthService.generateTokenPair cfg user now),
      store := store ++ [user],
      ops := [.existsByEmail req.email, .create req.email] }

/-- C8.  Signup with `password != confirmPassword` throws the
password-mismatch error before invoking any Credential Store operation:
the operation trace is empty and the store is unchanged. -/
theorem signup_mismatch_fails_fast (store : UserStore) (cfg : AuthConfig)
    (req : ISignupRequest) (newId : String) (now : Nat)
    (h : req.password ≠ req.confirmPassword) :
    (AuthService.signup store cfg req newId now).result =
      .error "Password and confirm password do not match" ∧
    (AuthService.signup store cfg req newId now).store = store ∧
    (AuthService.signup store cfg req newId now).ops = [] := by
  refine ⟨?_, ?_, ?_⟩ <;>
    simp [AuthService.signup, h, AUTH_MESSAGES.SIGNUP.PASSWORD_MISMATCH]

/-- Witness for C8 at a concrete mismatching request against a nonempty
store. -/
theorem signup_mismatch_fails_fast_witness :
    (AuthService.signup
        [{ _id := "u0", email := "x@y.com", password := "h", fullName := "X Y",
           avatarUrl := none }]
        { JWT_SECRET := "s1", JWT_EXPIRES_IN := 86400,
          JWT_REFRESH_SECRET := "s2", JWT_REFRESH_EXPIRES_IN := 604800 }
        { email := "a@b.com", password := "Abc12345!", confirmPassword := "Abc12345?",
          fullName := "A B", avatarUrl := none } "u1" 0).result =
      .error "Password and confirm password do not match" ∧
    (AuthService.signup
        [{ _id := "u0", email := "x@y.com", password := "h", fullName := "X Y",
           avatarUrl := none }]
        { JWT_SECRET := "s1", JWT_EXPIRES_IN := 86400,
          JWT_REFRESH_SECRET := "s2", JWT_REFRESH_EXPIRES_IN := 604800 }
        { email := "a@b.com", password := "Abc12345!", confirmPassword := "Abc12345?",
          fullName := "A B", avatarUrl := none } "u1" 0).store =
      [{ _id := "u0", email := "x@y.com", password := "h", fullName := "X Y",
         avatarUrl := none }] ∧
    (AuthService.signup
        [{ _id := "u0", email := "x@y.com", password := "h", fullName := "X Y",
           avatarUrl := none }]
        { JWT_SECRET := "s1", JWT_EXPIRES_IN := 86400,
          JWT_REFRESH_SECRET := "s2", JWT_REFRESH_EXPIRES_IN := 604800 }
        { email := "a@b.com", password := "Abc12345!", confirmPassword := "Abc12345?",
          fullName := "A B", avatarUrl := none } "u1" 0).ops = [] :=
  signup_mismatch_fails_fast
    [{ _id := "u0", email := "x@y.com", password := "h", fullName := "X Y",
       avatarUrl := none }]
    { JWT_SECRET := "s1", JWT_EXPIRES_IN := 86400,
      JWT_REFRESH_SECRET := "s2", JWT_REFRESH_EXPIRES_IN := 604800 }
    { email := "a@b.com", password := "Abc12345!", confirmPassword := "Abc12345?",
      fullName := "A B", avatarUrl := none } "u1" 0 (by decide)

namespace EMAIL_MESSAGES

/-- `EMAIL_MESSAGES.SIGNUP_EMAIL.VERIFICATION_SENT` from
`email.message.ts`. -/
def SIGNUP_EMAIL.VERIFICATION_SENT : String := "Verification email sent to your inbox"

end EMAIL_MESSAGES

/-- The `signup` controller from `auth.controller.ts`: delegate to
`AuthService.signup` (a thrown error propagates out through
`typedAsyncHandler`, modelled as `.error`), write both token cookies, then
attempt the welcome email; whether it succeeds (`emailSendFails = false`)
or throws (`emailSendFails = true`), respond with `ResponseBuilder.success`
(status 200 by default), differing only in the `emailSent`/`note` data
fields. -/
def signupHandler (store : UserStore) (cfg : AuthConfig) (env : EnvConfig)
    (body : ISignupRequest) (emailSendFails : Bool) (newId : String) (now : Nat) :
    Except String (HttpResponse × UserStore) :=
  let outcome := AuthService.signup store cfg body newId now
  match outcome.result with
  | .error msg => .error msg
  | .ok pair =>
    let cookies : List SetCookie :=
      [ { name := COOKIE_NAMES.ACCESS_TOKEN, value := some pair.1,
          options := CookieHelper.getAccessTokenCookieOptions env },
        { name := COOKIE_NAMES.REFRESH_TOKEN, value := some pair.2,
          options := CookieHelper.getRefreshTokenCookieOptions env } ]
    if emailSendFails then
      .ok (ResponseBuilder.success cookies
        [("message", some "Account created successfully"), ("emailSent", some "false"),
         ("note", some "Account created but welcome email could not be sent")]
        AUTH_MESSAGES.SIGNUP.SUCCESS 200, outcome.store)
    else
      .ok (ResponseBuilder.success cookies
        [("message", some "Account created successfully"), ("emailSent", some "true"),
         ("note", some EMAIL_MESSAGES.SIGNUP_EMAIL.VERIFICATION_SENT)]
        AUTH_MESSAGES.SIGNUP.SUCCESS 200, outcome.store)

/-- C4 counterexample.  A fully valid signup (matching passwords, unused
email) is answered with HTTP status 200, not 201: the controller calls
`ResponseBuilder.success` with the default status code instead of
`ResponseBuilder.created`. -/
theorem signup_responds_200_not_201 :
    (signupHandler []
        { JWT_SECRET := "s1", JWT_EXPIRES_IN := 86400,
          JWT_REFRESH_SECRET := "s2", JWT_REFRESH_EXPIRES_IN := 604800 }
        { COOKIE_HTTP_ONLY := true, COOKIE_SECURE := false, COOKIE_SAME_SITE := "lax",
          COOKIE_ACCESS_TOKEN_EXPIRES := 900000, COOKIE_REFRESH_TOKEN_EXPIRES := 604800000,
          NODE_ENV := "development" }
        { email := "a@b.com", password := "Abc12345!", confirmPassword := "Abc12345!",
          fullName := "A B", avatarUrl := none } false "u1" 0).toOption.map
        (fun r => r.1.status) = some 200 ∧
    (200 : Nat) ≠ 201 :=
  ⟨rfl, by decide⟩

/-- C4 amended.  For every valid signup request (matching passwords,
unused email), the signup handler responds with HTTP status 200 (not the
201 of the spec's table), `success: true`, sets both the `accessToken`
and `refreshToken` cookies to freshly minted tokens, and the response
body's data object contains no `password` field. -/
theorem signup_success_behavior (store : UserStore) (cfg : AuthConfig) (env : EnvConfig)
    (body : ISignupRequest) (emailSendFails : Bool) (newId : String) (now : Nat)
    (hpw : body.password = body.confirmPassword)
    (hmail : existsByEmail store body.email = false) :
    ∃ resp newStore,
      signupHandler store cfg env body emailSendFails newId now = .ok (resp, newStore) ∧
      resp.status = 200 ∧
      resp.success = true ∧
      resp.cookies.map SetCookie.name = ["accessToken", "refreshToken"] ∧
      (∀ c ∈ resp.cookies, c.value.isSome) ∧
      (∀ kv ∈ resp.data, kv.1 ≠ "password") := by
  simp only [signupHandler, AuthService.signup, hpw, ne_eq, not_true_eq_false, if_false,
    hmail, ite_false, Bool.false_eq_true]
  cases emailSendFails <;>
    exact ⟨_, _, rfl, rfl, rfl, rfl, by simp [ResponseBuilder.success],
      by simp [ResponseBuilder.success]⟩

/-- Witness for C4's amended theorem at a concrete valid request. -/
theorem signup_success_behavior_witness :
    ∃ resp newStore,
      signupHandler []
          { JWT_SECRET := "s1", JWT_EXPIRES_IN := 86400,
            JWT_REFRESH_SECRET := "s2", JWT_REFRESH_EXPIRES_IN := 604800 }
          { COOKIE_HTTP_ONLY := true, COOKIE_SECURE := false, COOKIE_SAME_SITE := "lax",
            COOKIE_ACCESS_TOKEN_EXPIRES := 900000,
            COOKIE_REFRESH_TOKEN_EXPIRES := 604800000, NODE_ENV := "development" }
          { email := "a@b.com", password := "Abc12345!", confirmPassword := "Abc12345!",
            fullName := "A B", avatarUrl := none } false "u1" 0 = .ok (resp, newStore) ∧
      resp.status = 200 ∧
      resp.success = true ∧
      resp.cookies.map SetCookie.name = ["accessToken", "refreshToken"] ∧
      (∀ c ∈ resp.cookies, c.value.isSome) ∧
      (∀ kv ∈ resp.data, kv.1 ≠ "password") :=
  signup_success_behavior []
    { JWT_SECRET := "s1", JWT_EXPIRES_IN := 86400,
      JWT_REFRESH_SECRET := "s2", JWT_REFRESH_EXPIRES_IN := 604800 }
    { COOKIE_HTTP_ONLY := true, COOKIE_SECURE := false, COOKIE_SAME_SITE := "lax",
      COOKIE_ACCESS_TOKEN_EXPIRES := 900000, COOKIE_REFRESH_TOKEN_EXPIRES := 604800000,
      NODE_ENV := "development" }
    { email := "a@b.com", password := "Abc12345!", confirmPassword := "Abc12345!",
      fullName := "A B", avatarUrl := none } false "u1" 0 rfl rfl

/-- C9.  Signup's HTTP outcome does not depend on the welcome-email step:
when `emailService.sendSignupEmail` throws after the account was created
and the cookies were written, the handler still responds success with the
same status and the same cookies, reporting `emailSent: "false"` instead
of `"true"`, and the created account persists in the store either way. -/
theorem signup_email_failure_still_succeeds (store : UserStore) (cfg : AuthConfig)
    (env : EnvConfig) (body : ISignupRequest) (newId : String) (now : Nat)
    (hpw : body.password = body.confirmPassword)
    (hmail : existsByEmail store body.email = false) :
    ∃ resp1 resp2 newStore,
      signupHandler store cfg env body false newId now = .ok (resp1, newStore) ∧
      signupHandler store cfg env body true newId now = .ok (resp2, newStore) ∧
      resp2.status = resp1.status ∧
      resp2.success = true ∧
      resp2.cookies = resp1.cookies ∧
      ("emailSent", some "true") ∈ resp1.data ∧
      ("emailSent", some "false") ∈ resp2.data ∧
      ∃ u ∈ newStore, u.email = body.email ∧ u.fullName = body.fullName := by
  simp only [signupHandler, AuthService.signup, hpw, ne_eq, not_true_eq_false, if_false,
    hmail, Bool.false_eq_true, ite_false]
  exact ⟨_, _, _, rfl, rfl, rfl, rfl, rfl, by simp [ResponseBuilder.success],
    by simp [ResponseBuilder.success],
    ⟨{ _id := newId, email := body.email, password := bcryptHash body.confirmPassword,
       fullName := body.fullName, avatarUrl := body.avatarUrl }, by simp, rfl, rfl⟩⟩

/-- Witness for C9 at a concrete valid request. -/
theorem signup_email_failure_still_succeeds_witness :
    ∃ resp1 resp2 newStore,
      signupHandler []
          { JWT_SECRET := "s1", JWT_EXPIRES_IN := 86400,
            JWT_REFRESH_SECRET := "s2", JWT_REFRESH_EXPIRES_IN := 604800 }
          { COOKIE_HTTP_ONLY := true, COOKIE_SECURE := false, COOKIE_SAME_SITE := "lax",
            COOKIE_ACCESS_TOKEN_EXPIRES := 900000,
            COOKIE_REFRESH_TOKEN_EXPIRES := 604800000, NODE_ENV := "development" }
          { email := "a@b.com", password := "Abc12345!", confirmPassword := "Abc12345!",
            fullName := "A B", avatarUrl := none } false "u1" 0 = .ok (resp1, newStore) ∧
      signupHandler []
          { JWT_SECRET := "s1", JWT_EXPIRES_IN := 86400,
            JWT_REFRESH_SECRET := "s2", JWT_REFRESH_EXPIRES_IN := 604800 }
          { COOKIE_HTTP_ONLY := true, COOKIE_SECURE := false, COOKIE_SAME_SITE := "lax",
            COOKIE_ACCESS_TOKEN_EXPIRES := 900000,
            COOKIE_REFRESH_TOKEN_EXPIRES := 604800000, NODE_ENV := "development" }
          { email := "a@b.com", password := "Abc12345!", confirmPassword := "Abc12345!",
            fullName := "A B", avatarUrl := none } true "u1" 0 = .ok (resp2, newStore) ∧
      resp2.status = resp1.status ∧
      resp2.success = true ∧
      resp2.cookies = resp1.cookies ∧
      ("emailSent", some "true") ∈ resp1.data ∧
      ("emailSent", some "false") ∈ resp2.data ∧
      ∃ u ∈ newStore, u.email = "a@b.com" ∧ u.fullName = "A B" :=
  signup_email_failure_still_succeeds []
    { JWT_SECRET := "s1", JWT_EXPIRES_IN := 86400,
      JWT_REFRESH_SECRET := "s2", JWT_REFRESH_EXPIRES_IN := 604800 }
    { COOKIE_HTTP_ONLY := true, COOKIE_SECURE := false, COOKIE_SAME_SITE := "lax",
      COOKIE_ACCESS_TOKEN_EXPIRES := 900000, COOKIE_REFRESH_TOKEN_EXPIRES := 604800000,
      NODE_ENV := "development" }
    { email := "a@b.com", password := "Abc12345!", confirmPassword := "Abc12345!",
      fullName := "A B", avatarUrl := none } "u1" 0 rfl rfl

/-- The `signin` controller from `auth.controller.ts`: delegate to
`AuthService.login` (a thrown error propagates out through
`typedAsyncHandler` before any `res.cookie` call, modelled as `.error`),
otherwise write both token cookies and respond success. -/
def signinHandler (store : UserStore) (cfg : AuthConfig) (env : EnvConfig)
    (email password : String) (now : Nat) : Except String HttpResponse :=
  match AuthService.login store cfg email password now with
  | .error msg => .error msg
  | .ok pair =>
    .ok (ResponseBuilder.success
      [ { name := COOKIE_NAMES.ACCESS_TOKEN, value := some pair.1,
          options := CookieHelper.getAccessTokenCookieOptions env },
        { name := COOKIE_NAMES.REFRESH_TOKEN, value := some pair.2,
          options := CookieHelper.getRefreshTokenCookieOptions env } ]
      [("message", some "Login successful")] AUTH_MESSAGES.LOGIN.SUCCESS 200)

/-- C7.  Signin failure is undifferentiated: a run whose email matches no
account and a run whose account exists but whose password comparison
fails both throw before any cookie write, with the identical message
`Invalid email or password` — so the response reveals nothing about
whether the email exists, and in both runs no token is issued and no
cookie is set (the handler result is the thrown error, not a response). -/
theorem signin_failure_undifferentiated (store1 store2 : UserStore)
    (cfg1 cfg2 : AuthConfig) (env1 env2 : EnvConfig)
    (email1 pw1 email2 pw2 : String) (now1 now2 : Nat) (u : UserDocument)
    (h1 : findByEmailStore store1 email1 = none)
    (h2 : findByEmailStore store2 email2 = some u)
    (h3 : u.comparePassword pw2 = false) :
    signinHandler store1 cfg1 env1 email1 pw1 now1 = .error "Invalid email or password" ∧
    signinHandler store2 cfg2 env2 email2 pw2 now2 = .error "Invalid email or password" ∧
    signinHandler store1 cfg1 env1 email1 pw1 now1 =
      signinHandler store2 cfg2 env2 email2 pw2 now2 := by
  have e1 : signinHandler store1 cfg1 env1 email1 pw1 now1 =
      .error "Invalid email or password" := by
    simp [signinHandler, AuthService.login, h1, AUTH_MESSAGES.LOGIN.INVALID_CREDENTIALS]
  have e2 : signinHandler store2 cfg2 env2 email2 pw2 now2 =
      .error "Invalid email or password" := by
    simp [signinHandler, AuthService.login, h2, h3, AUTH_MESSAGES.LOGIN.INVALID_CREDENTIALS]
  exact ⟨e1, e2, e1.trans e2.symm⟩

/-- Witness for C7: a store without the email, and a store whose only
record's stored hash does not match the attempted password. -/
theorem signin_failure_undifferentiated_witness :
    signinHandler []
        { JWT_SECRET := "s1", JWT_EXPIRES_IN := 86400,
          JWT_REFRESH_SECRET := "s2", JWT_REFRESH_EXPIRES_IN := 604800 }
        { COOKIE_HTTP_ONLY := true, COOKIE_SECURE := false, COOKIE_SAME_SITE := "lax",
          COOKIE_ACCESS_TOKEN_EXPIRES := 900000, COOKIE_REFRESH_TOKEN_EXPIRES := 604800000,
          NODE_ENV := "development" }
        "nouser@b.com" "whatever" 0 = .error "Invalid email or password" ∧
    signinHandler
        [{ _id := "u1", email := "a@b.com", password := bcryptHash "Right123!",
           fullName := "A B", avatarUrl := none }]
        { JWT_SECRET := "s1", JWT_EXPIRES_IN := 86400,
          JWT_REFRESH_SECRET := "s2", JWT_REFRESH_EXPIRES_IN := 604800 }
        { COOKIE_HTTP_ONLY := true, COOKIE_SECURE := false, COOKIE_SAME_SITE := "lax",
          COOKIE_ACCESS_TOKEN_EXPIRES := 900000, COOKIE_REFRESH_TOKEN_EXPIRES := 604800000,
          NODE_ENV := "development" }
        "a@b.com" "Wrong123!" 0 = .error "Invalid email or password" ∧
    signinHandler []
        { JWT_SECRET := "s1", JWT_EXPIRES_IN := 86400,
          JWT_REFRESH_SECRET := "s2", JWT_REFRESH_EXPIRES_IN := 604800 }
        { COOKIE_HTTP_ONLY := true, COOKIE_SECURE := false, COOKIE_SAME_SITE := "lax",
          COOKIE_ACCESS_TOKEN_EXPIRES := 900000, COOKIE_REFRESH_TOKEN_EXPIRES := 604800000,
          NODE_ENV := "development" }
        "nouser@b.com" "whatever" 0 =
      signinHandler
        [{ _id := "u1", email := "a@b.com", password := bcryptHash "Right123!",
           fullName := "A B", avatarUrl := none }]
        { JWT_SECRET := "s1", JWT_EXPIRES_IN := 86400,
          JWT_REFRESH_SECRET := "s2", JWT_REFRESH_EXPIRES_IN := 604800 }
        { COOKIE_HTTP_ONLY := true, COOKIE_SECURE := false, COOKIE_SAME_SITE := "lax",
          COOKIE_ACCESS_TOKEN_EXPIRES := 900000, COOKIE_REFRESH_TOKEN_EXPIRES := 604800000,
          NODE_ENV := "development" }
        "a@b.com" "Wrong123!" 0 :=
  signin_failure_undifferentiated []
    [{ _id := "u1", email := "a@b.com", password := bcryptHash "Right123!",
       fullName := "A B", avatarUrl := none }]
    { JWT_SECRET := "s1", JWT_EXPIRES_IN := 86400,
      JWT_REFRESH_SECRET := "s2", JWT_REFRESH_EXPIRES_IN := 604800 }
    { JWT_SECRET := "s1", JWT_EXPIRES_IN := 86400,
      JWT_REFRESH_SECRET := "s2", JWT_REFRESH_EXPIRES_IN := 604800 }
    { COOKIE_HTTP_ONLY := true, COOKIE_SECURE := false, COOKIE_SAME_SITE := "lax",
      COOKIE_ACCESS_TOKEN_EXPIRES := 900000, COOKIE_REFRESH_TOKEN_EXPIRES := 604800000,
      NODE_ENV := "development" }
    { COOKIE_HTTP_ONLY := true, COOKIE_SECURE := false, COOKIE_SAME_SITE := "lax",
      COOKIE_ACCESS_TOKEN_EXPIRES := 900000, COOKIE_REFRESH_TOKEN_EXPIRES := 604800000,
      NODE_ENV := "development" }
    "nouser@b.com" "whatever" "a@b.com" "Wrong123!" 0 0
    { _id := "u1", email := "a@b.com", password := bcryptHash "Right123!",
      fullName := "A B", avatarUrl := none }
    rfl rfl (by decide)

/-- JavaScript truthiness of a possibly-absent cookie value: an absent
cookie (`undefined`) and an empty-string value are both falsy. -/
def jsTruthy (value : Option String) : Bool :=
  match value with
  | none => false
  | some s => s != ""

/-- The `testCookie` controller from `auth.controller.ts` (route
`GET /auth/test/cookie`, registered without `protectRoute`): reads both
cookie values and, `if (accessToken || refreshToken)`, echoes them back in
the data object; otherwise responds 404 `No auth cookies found`. -/
def testCookie (accessToken refreshToken : Option String) : HttpResponse :=
  if jsTruthy accessToken || jsTruthy refreshToken then
    ResponseBuilder.success []
      [("accessToken", accessToken), ("refreshToken", refreshToken)]
      "Cookies retrieved successfully" 200
  else
    ResponseBuilder.error [] "No auth cookies found" 404

/-- C10 counterexample.  A request that does carry an `accessToken`
cookie — with the empty-string value, exactly what the clearing writes
leave behind — is answered 404, not with the echo response: the handler
tests JavaScript truthiness, not presence. -/
theorem test_cookie_present_empty_gets_404 :
    testCookie (some "") none = ResponseBuilder.error [] "No auth cookies found" 404 ∧
    (testCookie (some "") none).status = 404 ∧
    (testCookie (some "") none).success = false :=
  ⟨rfl, rfl, rfl⟩

/-- C10 amended.  The unauthenticated `GET /auth/test/cookie` endpoint
echoes the raw `accessToken` and `refreshToken` cookie values back in the
response data whenever at least one of the two is present with a
non-empty value (no verification involved), and responds 404 when both
are absent or empty. -/
theorem test_cookie_behavior (accessToken refreshToken : Option String) :
    ((jsTruthy accessToken || jsTruthy refreshToken) = true →
      testCookie accessToken refreshToken =
        ResponseBuilder.success []
          [("accessToken", accessToken), ("refreshToken", refreshToken)]
          "Cookies retrieved successfully" 200) ∧
    ((jsTruthy accessToken || jsTruthy refreshToken) = false →
      testCookie accessToken refreshToken =
        ResponseBuilder.error [] "No auth cookies found" 404) := by
  constructor
  · intro h
    simp [testCookie, h]
  · intro h
    simp [testCookie, h]

/-- Witness for C10's amended theorem: one non-empty cookie is echoed. -/
theorem test_cookie_behavior_witness :
    testCookie (some "tok.abc.sig") none =
      ResponseBuilder.success []
        [("accessToken", some "tok.abc.sig"), ("refreshToken", none)]
        "Cookies retrieved successfully" 200 :=
  (test_cookie_behavior (some "tok.abc.sig") none).1 (by decide)
